import Mathlib

/-!
Verification of the cliplink packet codec, handshake, session and
repository logic against their Rust sources.  Bytes are modelled as `Nat`
values, byte buffers as `List Nat`, fallible Rust functions as `Except`,
and Rust panics as a distinguished `PanicOr.panics` outcome.
-/

namespace Cliplink

/-! ## Packet codec — src/cliplink-common/src/packet.rs -/

def PACKET_SIZE : Nat := 1024

def SECTION_TYPE_LEN_OFFSET : Nat := 0
def SECTION_TYPE_LEN_SIZE : Nat := 2
def SECTION_TYPE_OFFSET : Nat := SECTION_TYPE_LEN_OFFSET + SECTION_TYPE_LEN_SIZE
def SECTION_TYPE_SIZE : Nat := 24

def SECTION_PAYLOAD_LEN_OFFSET : Nat := SECTION_TYPE_OFFSET + SECTION_TYPE_SIZE
def SECTION_PAYLOAD_LEN_SIZE : Nat := 2
def SECTION_PAYLOAD_OFFSET : Nat := SECTION_PAYLOAD_LEN_OFFSET + SECTION_PAYLOAD_LEN_SIZE
def SECTION_PAYLOAD_SIZE : Nat := PACKET_SIZE - SECTION_PAYLOAD_OFFSET

/-- `byte_slice_factory!($len)`: a zero-initialised `$len`-byte array into
which the first `min(src.len(), $len)` bytes of `src` are copied. -/
def toSized (n : Nat) (src : List Nat) : List Nat :=
  src.take n ++ List.replicate (n - src.length) 0

/-- `usize::to_le_bytes` on a 64-bit machine: eight little-endian bytes. -/
def usizeToLeBytes (x : Nat) : List Nat :=
  (List.range 8).map (fun i => x / 256 ^ i % 256)

/-- `usize::from_le_bytes` applied to an 8-byte little-endian buffer. -/
def usizeFromLeBytes (bytes : List Nat) : Nat :=
  bytes.foldr (fun b acc => b + 256 * acc) 0

/-- `PacketError` from packet.rs (the `Utf8Error` payload of `ParsingError`
is irrelevant to the codec logic and dropped). -/
inductive PacketError where
  | SectionOverflow
  | BufferOverflow
  | ParsingError
  deriving DecidableEq, Repr

/-- Transport packet structure: a `PACKET_SIZE`-byte buffer. -/
structure Packet where
  buf : List Nat
  deriving DecidableEq, Repr

deriving instance DecidableEq for Except

set_option maxRecDepth 10000

/-- Reading `slice!(buf[offset; size])`. -/
def sliceAt (buf : List Nat) (offset size : Nat) : List Nat :=
  (buf.drop offset).take size

/-- `slice!(buf[offset; src.len()]).copy_from_slice(src)`. -/
def copyFromSlice (buf : List Nat) (offset : Nat) (src : List Nat) : List Nat :=
  buf.take offset ++ src ++ buf.drop (offset + src.length)

/-- `Packet::default()`: an all-zero buffer. -/
def Packet.mkDefault : Packet :=
  ⟨List.replicate PACKET_SIZE 0⟩

/-- `Packet::new(ty, payload)`: write the four sections into a zeroed buffer.
Note the function is total: oversized inputs are truncated, never rejected. -/
def Packet.new (ty payload : List Nat) : Packet :=
  let buf := Packet.mkDefault.buf
  let buf := copyFromSlice buf SECTION_TYPE_LEN_OFFSET
    (toSized SECTION_TYPE_LEN_SIZE (usizeToLeBytes ty.length))
  let buf := copyFromSlice buf SECTION_TYPE_OFFSET
    (toSized SECTION_TYPE_SIZE ty)
  let buf := copyFromSlice buf SECTION_PAYLOAD_LEN_OFFSET
    (toSized SECTION_PAYLOAD_LEN_SIZE (usizeToLeBytes payload.length))
  let buf := copyFromSlice buf SECTION_PAYLOAD_OFFSET
    (toSized SECTION_PAYLOAD_SIZE payload)
  ⟨buf⟩

/-- `Packet::ty_len`. -/
def Packet.tyLen (p : Packet) : Nat :=
  usizeFromLeBytes (toSized 8 (sliceAt p.buf SECTION_TYPE_LEN_OFFSET SECTION_TYPE_LEN_SIZE))

/-- `Packet::ty`. -/
def Packet.ty (p : Packet) : Except PacketError (List Nat) :=
  let bufLen := p.tyLen
  if bufLen > SECTION_TYPE_SIZE then
    Except.error PacketError.SectionOverflow
  else
    Except.ok (sliceAt p.buf SECTION_TYPE_OFFSET bufLen)

/-- `Packet::payload_len`. -/
def Packet.payloadLen (p : Packet) : Nat :=
  usizeFromLeBytes (toSized 8 (sliceAt p.buf SECTION_PAYLOAD_LEN_OFFSET SECTION_PAYLOAD_LEN_SIZE))

/-- `Packet::payload`. -/
def Packet.payload (p : Packet) : Except PacketError (List Nat) :=
  let bufLen := p.payloadLen
  if bufLen > SECTION_PAYLOAD_SIZE then
    Except.error PacketError.SectionOverflow
  else if SECTION_PAYLOAD_OFFSET + bufLen > PACKET_SIZE then
    Except.error PacketError.BufferOverflow
  else
    Except.ok (sliceAt p.buf SECTION_PAYLOAD_OFFSET bufLen)

/-- `Packet::from_bytes`: copy the whole buffer. -/
def Packet.fromBytes (buf : List Nat) : Packet :=
  ⟨buf⟩


/-! ## Server connection — src/cliplink-server/src/conn.rs -/

/-- Outcome of running Rust code that may abort via `panic!` or
`unimplemented!`: either a panic with its message, or a returned value. -/
inductive PanicOr (α : Type) where
  | panics (msg : String)
  | value (v : α)
  deriving DecidableEq

def sshsynBytes : List Nat := [115, 115, 104, 115, 121, 110]
def copyBytes : List Nat := [99, 111, 112, 121]
def copyackBytes : List Nat := [99, 111, 112, 121, 97, 99, 107]
def pasteBytes : List Nat := [112, 97, 115, 116, 101]
def pasteackBytes : List Nat := [112, 97, 115, 116, 101, 97, 99, 107]
def termBytes : List Nat := [116, 101, 114, 109]

/-- The server-side `Input` enum: its only variant. -/
inductive ServerInput where
  | SshHandshake (pubKey : List Nat)
  deriving DecidableEq

/-- `RsaError` from src/cliplink-crypto/src/rsa.rs (error payloads of the
transparent wrappers are dropped; `RsaCrateError` stands for any error of the
external `rsa` crate). -/
inductive RsaError where
  | KeyNotSupported
  | MinimumKeySize2048
  | Utf8Error
  | RsaCrateError
  | SshKeyError
  deriving DecidableEq

/-- `ConnectionError` from the server conn.rs. -/
inductive ConnectionError where
  | UnsupportedKeyType
  | Aes
  | IOError
  | PacketError (e : PacketError)
  | RsaError (e : RsaError)
  deriving DecidableEq

/-- `impl TryFrom<&Packet> for Input` (server conn.rs, lines 19–28): a decode
error of `ty`/`payload` propagates as an error value, but a successfully
decoded type other than `b"sshsyn"` runs `unimplemented!("unexpected type")`,
which is a panic. -/
def serverInputTryFrom (p : Packet) : PanicOr (Except PacketError ServerInput) :=
  match p.ty with
  | Except.error e => PanicOr.value (Except.error e)
  | Except.ok t =>
    if t = sshsynBytes then
      match p.payload with
      | Except.error e => PanicOr.value (Except.error e)
      | Except.ok pk => PanicOr.value (Except.ok (ServerInput.SshHandshake pk))
    else
      PanicOr.panics "unexpected type"

/-- `Connection::<Handshake>::validate_ssh_key`, parameterised by the external
`RsaPubKey::from_openssh` parser.  The result carries the list of packets
written to the peer together with the outcome (`ok` = promotion to
`HandshakeAck`).  The Rust `let … else` arm that would write `sshsyndeny` and
return `UnsupportedKeyType` is unreachable — `Input` has exactly one variant,
so the pattern is irrefutable — and therefore has no counterpart here. -/
def validateSshKey (fromOpenssh : List Nat → Except RsaError Unit) (p : Packet) :
    PanicOr (List Packet × Except ConnectionError Unit) :=
  match serverInputTryFrom p with
  | PanicOr.panics m => PanicOr.panics m
  | PanicOr.value (Except.error e) =>
      PanicOr.value ([], Except.error (ConnectionError.PacketError e))
  | PanicOr.value (Except.ok (ServerInput.SshHandshake pk)) =>
    match fromOpenssh pk with
    | Except.error e => PanicOr.value ([], Except.error (ConnectionError.RsaError e))
    | Except.ok _ => PanicOr.value ([], Except.ok ())

/-! ## Secure-phase reads — src/cliplink-server/src/conn.rs -/

def NONCE_SIZE : Nat := 12
def GCM_AUTHENTICATION_TAG_SIZE : Nat := 16
def AES_256_SIZE : Nat := 32

/-- `Connection::read_bytes`: `stream.read(buf)` may deliver any chunk not
longer than the buffer; the code zero-fills the tail of the buffer after the
delivered bytes and returns `Ok(buf_len)` without comparing `buf_len` with the
requested size.  A stream `Err` shuts the socket down and then panics. -/
def readBytes (bufSize : Nat) (streamRead : Except Unit (List Nat)) :
    PanicOr (Except Unit (List Nat × Nat)) :=
  match streamRead with
  | Except.error _ => PanicOr.panics "read failure"
  | Except.ok chunk =>
    PanicOr.value (Except.ok
      (chunk.take bufSize ++ List.replicate (bufSize - (chunk.take bufSize).length) 0,
        (chunk.take bufSize).length))
/-- `Connection::<Secure>::read_packet_sec`, parameterised by the session
key's AEAD `decrypt`.  The byte count returned by `read_bytes` is discarded
(`let _ = …`): the first 12 buffer bytes become the nonce and the remainder is
decrypted whether or not the read was complete.  The final
`dec_buf.copy_from_slice` panics unless the plaintext is exactly
`PACKET_SIZE` bytes. -/
def readPacketSec (decrypt : List Nat → List Nat → Except Unit (List Nat))
    (streamRead : Except Unit (List Nat)) : PanicOr (Except ConnectionError Packet) :=
  match readBytes (NONCE_SIZE + PACKET_SIZE + GCM_AUTHENTICATION_TAG_SIZE) streamRead with
  | PanicOr.panics m => PanicOr.panics m
  | PanicOr.value (Except.error _) => PanicOr.value (Except.error ConnectionError.IOError)
  | PanicOr.value (Except.ok (buf, _)) =>
    match decrypt (buf.take NONCE_SIZE) (buf.drop NONCE_SIZE) with
    | Except.error _ => PanicOr.value (Except.error ConnectionError.Aes)
    | Except.ok dec =>
      if dec.length = PACKET_SIZE then
        PanicOr.value (Except.ok (Packet.fromBytes dec))
      else
        PanicOr.panics "copy_from_slice: length mismatch"

/-! ## Repository — src/cliplink-server/src/repository.rs -/

/-- `HashMap::get` on an association-list model: value of the first matching
key. -/
def mapGet {α β : Type} [DecidableEq α] : List (α × β) → α → Option β
  | [], _ => none
  | (k, v) :: rest, key => if k = key then some v else mapGet rest key

/-- `HashMap::insert` on an association-list model: replace the binding if the
key is present, append it otherwise. -/
def mapInsert {α β : Type} [DecidableEq α] : List (α × β) → α → β → List (α × β)
  | [], key, v => [(key, v)]
  | (k, w) :: rest, key, v =>
    if k = key then (key, v) :: rest else (k, w) :: mapInsert rest key v

def DEFAULT_CLIP : String := "default"

inductive InMemoryRepositoryError where
  | NotFound
  deriving DecidableEq

/-- `InMemoryRepository<T>`: identity → clip name → payload. -/
abbrev Repo (T : Type) := List (String × List (String × T))

/-- `InMemoryRepository::get`. -/
def repoGet {T : Type} (r : Repo T) (id : String) (clip : Option String) :
    Except InMemoryRepositoryError T :=
  match mapGet r id with
  | none => Except.error InMemoryRepositoryError.NotFound
  | some store =>
    match mapGet store (clip.getD DEFAULT_CLIP) with
    | none => Except.error InMemoryRepositoryError.NotFound
    | some v => Except.ok v

/-- `InMemoryRepository::patch`: ensure the identity's clip store exists, then
insert the payload under the clip name; always `Ok`, returning the updated
repository. -/
def repoPatch {T : Type} (r : Repo T) (id : String) (clip : Option String) (payload : T) :
    Except InMemoryRepositoryError (Repo T) :=
  let clipStore := (mapGet r id).getD []
  Except.ok (mapInsert r id (mapInsert clipStore (clip.getD DEFAULT_CLIP) payload))

/-! ## Session loop — src/cliplink-server/src/session.rs -/

/-- `SessionError` (the `TypeNotSupported` payload keeps the raw type bytes;
in Rust it is their lossy UTF-8 rendering, used only for display). -/
inductive SessionError where
  | TypeNotSupported (ty : List Nat)
  | ConnectionFailure (e : ConnectionError)
  | PacketFailure (e : PacketError)
  | RepositoryFailure
  deriving DecidableEq

/-- Result of one iteration of `Session::blocking_handle`. -/
inductive StepResult (T : Type) where
  | reply (p : Packet) (repo : Repo T)
  | term
  | fail (e : SessionError)

/-- One iteration of `Session::blocking_handle` applied to an
already-decrypted packet: dispatch on the type tag, produce the reply packet
and the updated repository; `term` exits the loop with `Ok`, any other tag
fails with `TypeNotSupported`. -/
def sessionStep (identity : String) (repo : Repo (List Nat)) (packet : Packet) :
    StepResult (List Nat) :=
  match packet.ty with
  | Except.error e => StepResult.fail (SessionError.PacketFailure e)
  | Except.ok t =>
    if t = copyBytes then
      match repoGet repo identity none with
      | Except.error _ => StepResult.fail SessionError.RepositoryFailure
      | Except.ok payload => StepResult.reply (Packet.new copyackBytes payload) repo
    else if t = pasteBytes then
      match packet.payload with
      | Except.error e => StepResult.fail (SessionError.PacketFailure e)
      | Except.ok pl =>
        match repoPatch repo identity none pl with
        | Except.error _ => StepResult.fail SessionError.RepositoryFailure
        | Except.ok r2 => StepResult.reply (Packet.new pasteackBytes []) r2
    else if t = termBytes then
      StepResult.term
    else
      StepResult.fail (SessionError.TypeNotSupported t)

/-! ## RSA key loading — src/cliplink-crypto/src/rsa.rs -/

/-- `BigUint::bits`: bit length of the modulus. -/
def natBits (n : Nat) : Nat := if n = 0 then 0 else n.log2 + 1

/-- Model of the external `rsa` crate `RsaPublicKey::new` validity check
(`check_public`): it rejects a modulus above the crate maximum of 4096 bits
and an invalid public exponent (below 3, even, or at least `2^33`), and it
imposes no minimum modulus size. -/
def rsaPublicKeyNew (n e : Nat) : Except RsaError (Nat × Nat) :=
  if 4096 < natBits n then Except.error RsaError.RsaCrateError
  else if e < 3 ∨ e % 2 = 0 ∨ 2 ^ 33 ≤ e then Except.error RsaError.RsaCrateError
  else Except.ok (n, e)

/-- `ssh_key::public::KeyData`, reduced to what the `match` inspects. -/
inductive KeyData where
  | Rsa (n e : Nat)
  | Other
  deriving DecidableEq

/-- `ssh_key::private::KeypairData`, reduced to what the `match` inspects. -/
inductive KeypairData where
  | Rsa (n e d p q : Nat)
  | Other
  deriving DecidableEq

/-- `RsaPubKey::from_openssh` after the textual OpenSSH parse succeeded:
dispatch on the key data and build the crate key.  The repository code adds no
key-size check of its own on this path. -/
def rsaPubKeyFromOpenssh (parsed : KeyData) : Except RsaError (Nat × Nat) :=
  match parsed with
  | KeyData.Rsa n e => rsaPublicKeyNew n e
  | KeyData.Other => Except.error RsaError.KeyNotSupported

/-- `RsaPrivKey::from_openssh` after the OpenSSH parse succeeded: build the
private key from its components, then keep it only if
`ret.size().saturating_mul(8) >= 2048`, where `size()` is the modulus byte
length `(bits + 7) / 8`; otherwise `MinimumKeySize2048`.  Failures of
`from_components` itself are external crate errors independent of the size
check and are not modelled. -/
def rsaPrivKeyFromOpenssh (parsed : KeypairData) : Except RsaError (Nat × Nat × Nat) :=
  match parsed with
  | KeypairData.Rsa n e d _ _ =>
    if 2048 ≤ ((natBits n + 7) / 8) * 8 then Except.ok (n, e, d)
    else Except.error RsaError.MinimumKeySize2048
  | KeypairData.Other => Except.error RsaError.KeyNotSupported

theorem toSized_length (n : Nat) (src : List Nat) : (toSized n src).length = n := by
  simp [toSized]
  omega

theorem toSized_of_le {n : Nat} {src : List Nat} (h : src.length ≤ n) :
    toSized n src = src ++ List.replicate (n - src.length) 0 := by
  simp [toSized, List.take_of_length_le h]

theorem copyStep0 (src : List Nat) (m : Nat) :
    copyFromSlice (List.replicate m 0) 0 src =
      src ++ List.replicate (m - src.length) 0 := by
  simp [copyFromSlice, List.drop_replicate]

theorem copyStep (pre src : List Nat) (m k : Nat) (hk : pre.length = k) :
    copyFromSlice (pre ++ List.replicate m 0) k src =
      pre ++ (src ++ List.replicate (m - src.length) 0) := by
  subst hk
  unfold copyFromSlice
  rw [List.take_left, ← List.drop_drop, List.drop_left, List.drop_replicate,
    List.append_assoc]

theorem usizeRoundTrip (L : Nat) :
    usizeFromLeBytes (toSized 8 (toSized 2 (usizeToLeBytes L))) = L % 65536 := by
  simp [usizeToLeBytes, usizeFromLeBytes, toSized, List.range_succ]
  omega

theorem Packet.new_buf (ty pl : List Nat) :
    (Packet.new ty pl).buf =
      toSized 2 (usizeToLeBytes ty.length) ++ (toSized 24 ty ++
        (toSized 2 (usizeToLeBytes pl.length) ++ toSized 996 pl)) := by
  have e1 := toSized_length 2 (usizeToLeBytes ty.length)
  have e2 := toSized_length 24 ty
  have e3 := toSized_length 2 (usizeToLeBytes pl.length)
  have e4 := toSized_length 996 pl
  have h26 : (toSized 2 (usizeToLeBytes ty.length) ++ toSized 24 ty).length = 26 := by
    simp [e1, e2]
  have h28 : ((toSized 2 (usizeToLeBytes ty.length) ++ toSized 24 ty) ++
      toSized 2 (usizeToLeBytes pl.length)).length = 28 := by
    simp [e1, e2, e3]
  show copyFromSlice (copyFromSlice (copyFromSlice (copyFromSlice
      (List.replicate 1024 0) 0 (toSized 2 (usizeToLeBytes ty.length)))
      2 (toSized 24 ty))
      26 (toSized 2 (usizeToLeBytes pl.length)))
      28 (toSized 996 pl) = _
  rw [copyStep0, e1]
  rw [copyStep _ _ _ _ e1, e2]
  rw [← List.append_assoc (toSized 2 (usizeToLeBytes ty.length)) (toSized 24 ty)
    (List.replicate (1024 - 2 - 24) 0)]
  rw [copyStep _ _ _ _ h26, e3]
  rw [← List.append_assoc (toSized 2 (usizeToLeBytes ty.length) ++ toSized 24 ty)
    (toSized 2 (usizeToLeBytes pl.length)) (List.replicate (1024 - 2 - 24 - 2) 0)]
  rw [copyStep _ _ _ _ h28, e4]
  simp [List.append_assoc]

theorem slice_chain_1 (s1 rest : List Nat) (e1 : s1.length = 2) :
    sliceAt (s1 ++ rest) 0 2 = s1 := by
  simp [sliceAt, List.take_left' e1]

theorem slice_chain_2 (s1 s2 rest : List Nat) (e1 : s1.length = 2) (k : Nat) :
    sliceAt (s1 ++ (s2 ++ rest)) 2 k = (s2 ++ rest).take k := by
  simp [sliceAt, List.drop_left' e1]

theorem slice_chain_3 (s1 s2 s3 rest : List Nat) (e1 : s1.length = 2) (e2 : s2.length = 24)
    (e3 : s3.length = 2) :
    sliceAt (s1 ++ (s2 ++ (s3 ++ rest))) 26 2 = s3 := by
  have h : s1 ++ (s2 ++ (s3 ++ rest)) = (s1 ++ s2) ++ (s3 ++ rest) := by
    simp [List.append_assoc]
  have h26 : (s1 ++ s2).length = 26 := by simp [e1, e2]
  rw [h]
  simp only [sliceAt]
  rw [List.drop_left' h26, List.take_left' e3]

theorem slice_chain_4 (s1 s2 s3 s4 : List Nat) (e1 : s1.length = 2) (e2 : s2.length = 24)
    (e3 : s3.length = 2) (k : Nat) :
    sliceAt (s1 ++ (s2 ++ (s3 ++ s4))) 28 k = s4.take k := by
  have h : s1 ++ (s2 ++ (s3 ++ s4)) = ((s1 ++ s2) ++ s3) ++ s4 := by
    simp [List.append_assoc]
  have h28 : ((s1 ++ s2) ++ s3).length = 28 := by simp [e1, e2, e3]
  rw [h]
  simp only [sliceAt]
  rw [List.drop_left' h28]

theorem Packet.tyLen_new (ty pl : List Nat) :
    (Packet.new ty pl).tyLen = ty.length % 65536 := by
  unfold Packet.tyLen
  rw [Packet.new_buf]
  show usizeFromLeBytes (toSized 8 (sliceAt _ 0 2)) = _
  rw [slice_chain_1 _ _ (toSized_length _ _)]
  exact usizeRoundTrip _

theorem Packet.payloadLen_new (ty pl : List Nat) :
    (Packet.new ty pl).payloadLen = pl.length % 65536 := by
  unfold Packet.payloadLen
  rw [Packet.new_buf]
  show usizeFromLeBytes (toSized 8 (sliceAt _ 26 2)) = _
  rw [slice_chain_3 _ _ _ _ (toSized_length _ _) (toSized_length _ _) (toSized_length _ _)]
  exact usizeRoundTrip _

theorem Packet.ty_new (ty pl : List Nat) (h : ty.length ≤ 24) :
    (Packet.new ty pl).ty = Except.ok ty := by
  unfold Packet.ty
  have hl : (Packet.new ty pl).tyLen = ty.length := by
    rw [Packet.tyLen_new]
    omega
  rw [hl]
  have hno : ¬ (ty.length > SECTION_TYPE_SIZE) := by
    simp only [SECTION_TYPE_SIZE]
    omega
  rw [if_neg hno]
  rw [Packet.new_buf]
  show Except.ok (sliceAt _ 2 ty.length) = _
  rw [slice_chain_2 _ _ _ (toSized_length _ _)]
  rw [toSized_of_le h, List.append_assoc, List.take_left]

theorem Packet.payload_new (ty pl : List Nat) (h : pl.length ≤ 996) :
    (Packet.new ty pl).payload = Except.ok pl := by
  unfold Packet.payload
  have hl : (Packet.new ty pl).payloadLen = pl.length := by
    rw [Packet.payloadLen_new]
    omega
  rw [hl]
  have hno : ¬ (pl.length > SECTION_PAYLOAD_SIZE) := by
    simp only [SECTION_PAYLOAD_SIZE, SECTION_PAYLOAD_OFFSET, SECTION_PAYLOAD_LEN_OFFSET,
      SECTION_PAYLOAD_LEN_SIZE, SECTION_TYPE_OFFSET, SECTION_TYPE_LEN_OFFSET,
      SECTION_TYPE_LEN_SIZE, SECTION_TYPE_SIZE, PACKET_SIZE]
    omega
  rw [if_neg hno]
  have hno2 : ¬ (SECTION_PAYLOAD_OFFSET + pl.length > PACKET_SIZE) := by
    simp only [SECTION_PAYLOAD_OFFSET, SECTION_PAYLOAD_LEN_OFFSET, SECTION_PAYLOAD_LEN_SIZE,
      SECTION_TYPE_OFFSET, SECTION_TYPE_LEN_OFFSET, SECTION_TYPE_LEN_SIZE,
      SECTION_TYPE_SIZE, PACKET_SIZE]
    omega
  rw [if_neg hno2]
  rw [Packet.new_buf]
  show Except.ok (sliceAt _ 28 pl.length) = _
  rw [slice_chain_4 _ _ _ _ (toSized_length _ _) (toSized_length _ _) (toSized_length _ _)]
  rw [toSized_of_le h, List.take_left]

theorem Packet.ty_new_overflow (ty pl : List Nat) (h : 24 < ty.length)
    (h2 : ty.length < 65536) :
    (Packet.new ty pl).ty = Except.error PacketError.SectionOverflow := by
  unfold Packet.ty
  have hl : (Packet.new ty pl).tyLen = ty.length := by
    rw [Packet.tyLen_new]
    omega
  rw [hl]
  have hgt : ty.length > SECTION_TYPE_SIZE := by
    simp only [SECTION_TYPE_SIZE]
    omega
  rw [if_pos hgt]

theorem Packet.payload_new_overflow (ty pl : List Nat) (h : 996 < pl.length)
    (h2 : pl.length < 65536) :
    (Packet.new ty pl).payload = Except.error PacketError.SectionOverflow := by
  unfold Packet.payload
  have hl : (Packet.new ty pl).payloadLen = pl.length := by
    rw [Packet.payloadLen_new]
    omega
  rw [hl]
  have hgt : pl.length > SECTION_PAYLOAD_SIZE := by
    simp only [SECTION_PAYLOAD_SIZE, SECTION_PAYLOAD_OFFSET, SECTION_PAYLOAD_LEN_OFFSET,
      SECTION_PAYLOAD_LEN_SIZE, SECTION_TYPE_OFFSET, SECTION_TYPE_LEN_OFFSET,
      SECTION_TYPE_LEN_SIZE, SECTION_TYPE_SIZE, PACKET_SIZE]
    omega
  rw [if_pos hgt]

theorem toSized2_le_bytes (L : Nat) :
    toSized 2 (usizeToLeBytes L) = [L % 256, L / 256 % 256] := by
  simp [toSized, usizeToLeBytes, List.range_succ]

/-- Claim C4: for every type of length at most 24 bytes and payload of length at
most 996 bytes, decoding the packet built by `Packet.new` returns the original
type and payload. -/
theorem packet_roundtrip (ty pl : List Nat) (h1 : ty.length ≤ 24) (h2 : pl.length ≤ 996) :
    (Packet.new ty pl).ty = Except.ok ty ∧ (Packet.new ty pl).payload = Except.ok pl :=
  ⟨Packet.ty_new ty pl h1, Packet.payload_new ty pl h2⟩

/-- Witness for the round-trip claim at a concrete type and payload. -/
theorem packet_roundtrip_witness :
    (Packet.new [115, 121, 110] [7, 8, 9]).ty = Except.ok [115, 121, 110] ∧
    (Packet.new [115, 121, 110] [7, 8, 9]).payload = Except.ok [7, 8, 9] :=
  packet_roundtrip [115, 121, 110] [7, 8, 9] (by decide) (by decide)

/-- Claim C5, counterexample: `Packet::new` never fails.  Constructing a packet
with a 25-byte type succeeds (a full buffer is produced); the overflow is only
reported later by the decoder, and an oversized payload is reported by
`Packet::payload` as `SectionOverflow`, not `BufferOverflow`. -/
theorem packet_new_total_counterexample :
    (Packet.new (List.replicate 25 7) []).buf.length = PACKET_SIZE ∧
    (Packet.new (List.replicate 25 7) []).ty = Except.error PacketError.SectionOverflow ∧
    (Packet.new [115, 121, 110] (List.replicate 997 1)).payload =
      Except.error PacketError.SectionOverflow ∧
    PacketError.SectionOverflow ≠ PacketError.BufferOverflow :=
  ⟨by rw [Packet.new_buf]; simp [toSized_length, PACKET_SIZE],
   Packet.ty_new_overflow _ _ (by simp) (by simp),
   Packet.payload_new_overflow _ _ (by simp) (by simp),
   by decide⟩

/-- Claim C5 as amended: constructing a packet always succeeds with a full
`PACKET_SIZE` buffer; for a type longer than 24 bytes the subsequent `ty`
decode fails with `SectionOverflow`, and for a payload longer than 996 bytes
the subsequent `payload` decode also fails with `SectionOverflow` (both length
fields being 16-bit on the wire). -/
theorem packet_new_overflow_amended (ty pl : List Nat) (h1 : 24 < ty.length)
    (h2 : ty.length < 65536) (h3 : 996 < pl.length) (h4 : pl.length < 65536) :
    (Packet.new ty pl).buf.length = PACKET_SIZE ∧
    (Packet.new ty pl).ty = Except.error PacketError.SectionOverflow ∧
    (Packet.new ty pl).payload = Except.error PacketError.SectionOverflow := by
  refine ⟨?_, Packet.ty_new_overflow ty pl h1 h2, Packet.payload_new_overflow ty pl h3 h4⟩
  rw [Packet.new_buf]
  simp [toSized_length, PACKET_SIZE]

/-- Witness for the amended overflow claim at concrete oversized inputs. -/
theorem packet_new_overflow_amended_witness :
    (Packet.new (List.replicate 25 7) (List.replicate 997 1)).buf.length = PACKET_SIZE ∧
    (Packet.new (List.replicate 25 7) (List.replicate 997 1)).ty =
      Except.error PacketError.SectionOverflow ∧
    (Packet.new (List.replicate 25 7) (List.replicate 997 1)).payload =
      Except.error PacketError.SectionOverflow :=
  packet_new_overflow_amended _ _ (by simp) (by simp) (by simp) (by simp)

/-- Claim C6: wire layout of an encoded packet — little-endian type length at
bytes 0..2, zero-padded type at 2..26, little-endian payload length at 26..28,
zero-padded payload at 28..1024, total buffer length `PACKET_SIZE`. -/
theorem packet_wire_layout (ty pl : List Nat) (h1 : ty.length ≤ 24) (h2 : pl.length ≤ 996) :
    sliceAt (Packet.new ty pl).buf 0 2 = [ty.length, 0] ∧
    sliceAt (Packet.new ty pl).buf 2 24 = ty ++ List.replicate (24 - ty.length) 0 ∧
    sliceAt (Packet.new ty pl).buf 26 2 = [pl.length % 256, pl.length / 256] ∧
    sliceAt (Packet.new ty pl).buf 28 996 = pl ++ List.replicate (996 - pl.length) 0 ∧
    (Packet.new ty pl).buf.length = PACKET_SIZE := by
  refine ⟨?_, ?_, ?_, ?_, ?_⟩
  · rw [Packet.new_buf, slice_chain_1 _ _ (toSized_length _ _), toSized2_le_bytes,
      Nat.mod_eq_of_lt (by omega : ty.length < 256),
      Nat.div_eq_of_lt (by omega : ty.length < 256)]
  · rw [Packet.new_buf, slice_chain_2 _ _ _ (toSized_length _ _),
      List.take_left' (toSized_length 24 ty), toSized_of_le h1]
  · rw [Packet.new_buf,
      slice_chain_3 _ _ _ _ (toSized_length _ _) (toSized_length _ _) (toSized_length _ _),
      toSized2_le_bytes,
      Nat.mod_eq_of_lt (by omega : pl.length / 256 < 256)]
  · rw [Packet.new_buf,
      slice_chain_4 _ _ _ _ (toSized_length _ _) (toSized_length _ _) (toSized_length _ _),
      List.take_of_length_le (le_of_eq (toSized_length 996 pl)), toSized_of_le h2]
  · rw [Packet.new_buf]
    simp [toSized_length, PACKET_SIZE]

/-- Witness for the wire-layout claim at a concrete type and payload. -/
theorem packet_wire_layout_witness :
    sliceAt (Packet.new [115, 121, 110] [7, 8, 9]).buf 0 2 = [3, 0] ∧
    sliceAt (Packet.new [115, 121, 110] [7, 8, 9]).buf 2 24 =
      [115, 121, 110] ++ List.replicate 21 0 ∧
    sliceAt (Packet.new [115, 121, 110] [7, 8, 9]).buf 26 2 = [3, 0] ∧
    sliceAt (Packet.new [115, 121, 110] [7, 8, 9]).buf 28 996 =
      [7, 8, 9] ++ List.replicate 993 0 ∧
    (Packet.new [115, 121, 110] [7, 8, 9]).buf.length = PACKET_SIZE :=
  packet_wire_layout [115, 121, 110] [7, 8, 9] (by decide) (by decide)

/-- Claim C10: `Packet::payload` can never return `BufferOverflow`: the branch
is dead because `SECTION_PAYLOAD_OFFSET + SECTION_PAYLOAD_SIZE = PACKET_SIZE`
and the first check already rejects any length above `SECTION_PAYLOAD_SIZE`. -/
theorem payload_no_buffer_overflow (p : Packet) :
    p.payload ≠ Except.error PacketError.BufferOverflow := by
  unfold Packet.payload
  by_cases h1 : p.payloadLen > SECTION_PAYLOAD_SIZE
  · rw [if_pos h1]
    simp
  · rw [if_neg h1]
    have h2 : ¬ (SECTION_PAYLOAD_OFFSET + p.payloadLen > PACKET_SIZE) := by
      simp only [SECTION_PAYLOAD_SIZE, SECTION_PAYLOAD_OFFSET, SECTION_PAYLOAD_LEN_OFFSET,
        SECTION_PAYLOAD_LEN_SIZE, SECTION_TYPE_OFFSET, SECTION_TYPE_LEN_OFFSET,
        SECTION_TYPE_LEN_SIZE, SECTION_TYPE_SIZE, PACKET_SIZE] at h1 ⊢
      omega
    rw [if_neg h2]
    simp

theorem mapGet_mapInsert_self {α β : Type} [DecidableEq α] (m : List (α × β)) (k : α) (v : β) :
    mapGet (mapInsert m k v) k = some v := by
  induction m with
  | nil => simp [mapInsert, mapGet]
  | cons hd tl ih =>
    obtain ⟨k1, v1⟩ := hd
    by_cases h : k1 = k
    · simp [mapInsert, h, mapGet]
    · simp [mapInsert, h, mapGet, ih]

theorem mapGet_mapInsert_ne {α β : Type} [DecidableEq α] (m : List (α × β)) (k k2 : α) (v : β)
    (hne : k ≠ k2) :
    mapGet (mapInsert m k2 v) k = mapGet m k := by
  have hne2 : ¬ k2 = k := fun h => hne h.symm
  induction m with
  | nil => simp [mapInsert, mapGet, hne2]
  | cons hd tl ih =>
    obtain ⟨k1, v1⟩ := hd
    by_cases h : k1 = k2
    · subst h
      simp [mapInsert, mapGet, hne2]
    · simp [mapInsert, h, mapGet, ih]

/-- Claim C1 (code-bug evidence): a well-formed plaintext handshake packet
whose type tag is `"foo"` drives the server's `Input::try_from` into
`unimplemented!("unexpected type")` — a panic, not an error value. -/
theorem try_from_panics_on_unknown_type :
    serverInputTryFrom (Packet.new [102, 111, 111] []) = PanicOr.panics "unexpected type" := by
  have hty : (Packet.new [102, 111, 111] []).ty = Except.ok [102, 111, 111] :=
    Packet.ty_new _ _ (by simp)
  simp [serverInputTryFrom, hty, sshsynBytes]

/-- Claim C2 (code-bug evidence): whenever the supplied public key fails to
parse, `validate_ssh_key` returns the RSA error without writing any packet —
in particular no `sshsyndeny` — and without promoting the connection. -/
theorem validate_bad_key_writes_nothing (fromOpenssh : List Nat → Except RsaError Unit)
    (p : Packet) (pk : List Nat) (e : RsaError)
    (h1 : serverInputTryFrom p = PanicOr.value (Except.ok (ServerInput.SshHandshake pk)))
    (h2 : fromOpenssh pk = Except.error e) :
    validateSshKey fromOpenssh p =
      PanicOr.value ([], Except.error (ConnectionError.RsaError e)) := by
  simp [validateSshKey, h1, h2]

/-- Witness: the key parser rejects the concrete payload of a well-formed
`sshsyn` packet; no deny packet is written. -/
theorem validate_bad_key_writes_nothing_witness :
    serverInputTryFrom (Packet.new sshsynBytes [1, 2, 3]) =
      PanicOr.value (Except.ok (ServerInput.SshHandshake [1, 2, 3])) ∧
    validateSshKey (fun _ => Except.error RsaError.KeyNotSupported)
        (Packet.new sshsynBytes [1, 2, 3]) =
      PanicOr.value ([], Except.error (ConnectionError.RsaError RsaError.KeyNotSupported)) := by
  have hty : (Packet.new sshsynBytes [1, 2, 3]).ty = Except.ok sshsynBytes :=
    Packet.ty_new _ _ (by simp [sshsynBytes])
  have hpl : (Packet.new sshsynBytes [1, 2, 3]).payload = Except.ok [1, 2, 3] :=
    Packet.payload_new _ _ (by simp)
  have h1 : serverInputTryFrom (Packet.new sshsynBytes [1, 2, 3]) =
      PanicOr.value (Except.ok (ServerInput.SshHandshake [1, 2, 3])) := by
    simp [serverInputTryFrom, hty, hpl]
  exact ⟨h1, validate_bad_key_writes_nothing _ _ _ _ h1 rfl⟩

/-- Claim C3 (code-bug evidence): `read_bytes` on the 1052-byte secure-frame
buffer accepts a 3-byte chunk from the stream, zero-fills the remaining 1049
bytes and returns `Ok` — the short read is treated as a complete frame instead
of being rejected. -/
theorem short_read_accepted :
    readBytes (NONCE_SIZE + PACKET_SIZE + GCM_AUTHENTICATION_TAG_SIZE) (Except.ok [1, 2, 3]) =
      PanicOr.value (Except.ok ([1, 2, 3] ++ List.replicate 1049 0, 3)) := by
  simp [readBytes, NONCE_SIZE, PACKET_SIZE, GCM_AUTHENTICATION_TAG_SIZE,
    List.take_of_length_le]

theorem natBits_3233 : natBits 3233 = 12 := by
  unfold natBits
  norm_num [Nat.log2]

/-- Claim C7, counterexample: a 12-bit RSA public key (n = 3233, e = 17) is
accepted by `RsaPubKey::from_openssh` — the public-key load path has no
minimum-size check at all. -/
theorem pub_key_small_accepted :
    rsaPubKeyFromOpenssh (KeyData.Rsa 3233 17) = Except.ok (3233, 17) ∧
    natBits 3233 < 2048 := by
  constructor
  · show rsaPublicKeyNew 3233 17 = Except.ok (3233, 17)
    unfold rsaPublicKeyNew
    rw [natBits_3233]
    norm_num
  · rw [natBits_3233]
    norm_num

/-- Claim C7 as amended: only `RsaPrivKey::from_openssh` enforces the minimum
size, rejecting a private key whose modulus byte length times 8 is below 2048;
`RsaPubKey::from_openssh` never raises `MinimumKeySize2048` for any RSA key
data. -/
theorem min_key_size_amended (n e d p q : Nat) (h : ((natBits n + 7) / 8) * 8 < 2048) :
    rsaPrivKeyFromOpenssh (KeypairData.Rsa n e d p q) =
      Except.error RsaError.MinimumKeySize2048 ∧
    ∀ m f, rsaPubKeyFromOpenssh (KeyData.Rsa m f) ≠
      Except.error RsaError.MinimumKeySize2048 := by
  constructor
  · have hlt : ¬ 2048 ≤ ((natBits n + 7) / 8) * 8 := by omega
    simp [rsaPrivKeyFromOpenssh, hlt]
  · intro m f
    simp only [rsaPubKeyFromOpenssh, rsaPublicKeyNew]
    by_cases h1 : 4096 < natBits m
    · simp only [if_pos h1]
      simp
    · by_cases h2 : f < 3 ∨ f % 2 = 0 ∨ 2 ^ 33 ≤ f
      · simp only [if_neg h1, if_pos h2]
        simp
      · simp only [if_neg h1, if_neg h2]
        simp

/-- Witness: the 12-bit private key (n = 3233) is rejected with
`MinimumKeySize2048` while the public-key path never produces that error. -/
theorem min_key_size_amended_witness :
    rsaPrivKeyFromOpenssh (KeypairData.Rsa 3233 17 2753 61 53) =
      Except.error RsaError.MinimumKeySize2048 ∧
    ∀ m f, rsaPubKeyFromOpenssh (KeyData.Rsa m f) ≠
      Except.error RsaError.MinimumKeySize2048 :=
  min_key_size_amended 3233 17 2753 61 53 (by rw [natBits_3233]; norm_num)

/-- Claim C8: dispatch of the server session loop on one decrypted packet —
`copy` replies `copyack` carrying the repository payload of the connection's
identity, `paste` stores the packet payload under the identity and replies an
empty `pasteack`, `term` ends the loop cleanly, and any other tag fails with
`TypeNotSupported` (a value, not a panic). -/
theorem session_dispatch (identity : String) (repo : Repo (List Nat)) (packet : Packet)
    (t : List Nat) (ht : packet.ty = Except.ok t) :
    (t = copyBytes → ∀ v, repoGet repo identity none = Except.ok v →
      sessionStep identity repo packet = StepResult.reply (Packet.new copyackBytes v) repo) ∧
    (t = pasteBytes → ∀ pl r2, packet.payload = Except.ok pl →
      repoPatch repo identity none pl = Except.ok r2 →
      sessionStep identity repo packet = StepResult.reply (Packet.new pasteackBytes []) r2 ∧
      repoGet r2 identity none = Except.ok pl) ∧
    (t = termBytes → sessionStep identity repo packet = StepResult.term) ∧
    (t ≠ copyBytes → t ≠ pasteBytes → t ≠ termBytes →
      sessionStep identity repo packet = StepResult.fail (SessionError.TypeNotSupported t)) := by
  refine ⟨?_, ?_, ?_, ?_⟩
  · intro h v hv
    subst h
    simp [sessionStep, ht, hv]
  · intro h pl r2 hpl hr2
    subst h
    have hne1 : pasteBytes ≠ copyBytes := by decide
    constructor
    · simp [sessionStep, ht, hpl, hr2, hne1, pasteBytes, copyBytes]
    · have : r2 = mapInsert repo identity
          (mapInsert ((mapGet repo identity).getD []) (Option.getD none DEFAULT_CLIP) pl) := by
        simpa [repoPatch] using hr2.symm
      subst this
      simp [repoGet, mapGet_mapInsert_self]
  · intro h
    subst h
    simp [sessionStep, ht, termBytes, copyBytes, pasteBytes]
  · intro h1 h2 h3
    simp [sessionStep, ht, h1, h2, h3]

/-- Witness: a concrete `term` packet makes the session step terminate
cleanly. -/
theorem session_dispatch_witness :
    sessionStep "id" [] (Packet.new termBytes []) = StepResult.term :=
  (session_dispatch "id" [] (Packet.new termBytes []) termBytes
    (Packet.ty_new termBytes [] (by simp [termBytes]))).2.2.1 rfl

/-- Claim C9: a `patch` under one identity's default clip leaves every other
identity's default-clip `get` unchanged. -/
theorem repo_isolation {T : Type} (r r2 : Repo T) (id1 id2 : String) (pl : T)
    (hne : id1 ≠ id2) (hp : repoPatch r id2 none pl = Except.ok r2) :
    repoGet r2 id1 none = repoGet r id1 none := by
  have hr2 : r2 = mapInsert r id2
      (mapInsert ((mapGet r id2).getD []) (Option.getD none DEFAULT_CLIP) pl) := by
    simpa [repoPatch] using hp.symm
  subst hr2
  simp [repoGet, mapGet_mapInsert_ne _ _ _ _ hne]

/-- Witness: patching identity "b" does not change what identity "a" reads. -/
theorem repo_isolation_witness :
    repoPatch ([("a", [("default", [7])])] : Repo (List Nat)) "b" none [9] =
      Except.ok [("a", [("default", [7])]), ("b", [("default", [9])])] ∧
    repoGet ([("a", [("default", [7])]), ("b", [("default", [9])])] : Repo (List Nat)) "a" none =
      repoGet ([("a", [("default", [7])])] : Repo (List Nat)) "a" none :=
  ⟨by decide,
   repo_isolation _ _ "a" "b" [9] (by decide) (by decide)⟩

end Cliplink
